import Mathlib

/-!
Verification of the color-math core of the Magic Number palette generator
(`src/App.tsx`).

Modelling conventions:
* JavaScript floating-point numbers are modelled as exact real numbers.
* Integer-valued quantities (RGB channels, grades) are modelled as naturals
  or integers; `Math.round` is Mathlib's `round` (both are `⌊x + 1/2⌋`).
* Strings are Lean strings, manipulated through their character lists;
  `String.prototype.toUpperCase` (applied to ASCII data only) is a map of
  `Char.toUpper` over the characters.
* `Number.prototype.toString(16)` is `natToHex` below (most significant
  digit first, lowercase letters), and the bitwise operators of `rgbToHex`
  are natural-number bitwise operators: per the specification the channel
  inputs are integers already clamped to `[0, 255]`, where the JavaScript
  int32 coercion is the identity.
-/

/-- An RGB triple as produced by `hexToRgb` (integer channels). -/
structure RGB where
  r : ℕ
  g : ℕ
  b : ℕ
deriving Repr, DecidableEq

/-- One character of the regex character class `[a-f\d]` under flag `i`:
a decimal digit (codepoints 48-57) or a hex letter of either case
(codepoints 97-102 and 65-70). -/
def isHexChar (c : Char) : Bool :=
  (48 ≤ c.toNat && c.toNat ≤ 57) || (97 ≤ c.toNat && c.toNat ≤ 102)
    || (65 ≤ c.toNat && c.toNat ≤ 70)

/-- The value `parseInt(-, 16)` assigns to one hex digit (0 for characters the
regular expression has already excluded). -/
def hexVal (c : Char) : ℕ :=
  if 48 ≤ c.toNat && c.toNat ≤ 57 then c.toNat - 48
  else if 97 ≤ c.toNat && c.toNat ≤ 102 then c.toNat - 87
  else if 65 ≤ c.toNat && c.toNat ≤ 70 then c.toNat - 55
  else 0

/-- `parseInt(-, 16)` on one two-character capture group of the regex. -/
def parsePair (c1 c2 : Char) : ℕ := 16 * hexVal c1 + hexVal c2

/-- The part of `hexToRgb` after the optional leading `#`: the regex requires
exactly six characters of `[a-f\d]` (flag `i`), split into three groups. -/
def parseHex6 : List Char → Option RGB
  | [c1, c2, c3, c4, c5, c6] =>
    if isHexChar c1 && isHexChar c2 && isHexChar c3 &&
        isHexChar c4 && isHexChar c5 && isHexChar c6 then
      some ⟨parsePair c1 c2, parsePair c3 c4, parsePair c5 c6⟩
    else none
  | _ => none

/-- `hexToRgb`: match `/^#?([a-f\d]{2})([a-f\d]{2})([a-f\d]{2})$/i` and
`parseInt` the three groups, `null` (`none`) when the regex fails. -/
def hexToRgb (hex : String) : Option RGB :=
  match hex.data with
  | '#' :: rest => parseHex6 rest
  | cs => parseHex6 cs

/-- `Number.prototype.toString(16)` for a natural number: most significant
digit first, lowercase hex letters. -/
def natToHex (n : ℕ) : List Char :=
  if h : n < 16 then [Nat.digitChar n]
  else natToHex (n / 16) ++ [Nat.digitChar (n % 16)]
decreasing_by exact Nat.div_lt_self (by omega) (by omega)

/-- `String.prototype.toUpperCase` on ASCII data: uppercase each character. -/
def toUpperStr (s : String) : String := String.mk (s.data.map Char.toUpper)

/-- `rgbToHex`:
`"#" + ((1 << 24) | (r << 16) | (g << 8) | b).toString(16).slice(1).toUpperCase()`.
`slice(1)` is `List.drop 1` on the digit characters. -/
def rgbToHex (r g b : ℕ) : String :=
  String.mk ('#' ::
    ((natToHex ((1 <<< 24) ||| (r <<< 16) ||| (g <<< 8) ||| b)).drop 1).map Char.toUpper)

/-! ### Arithmetic of the bit-packing in `rgbToHex` -/

theorem lor_eq_add_of_dvd {a b k : ℕ} (ha : 2 ^ k ∣ a) (hb : b < 2 ^ k) :
    a ||| b = a + b := by
  obtain ⟨c, rfl⟩ := ha
  apply Nat.eq_of_testBit_eq
  intro j
  rw [Nat.testBit_or, Nat.testBit_mul_pow_two_add c hb j]
  by_cases hj : j < k
  · have h0 : Nat.testBit (2 ^ k * c) j = false := by
      have h1 := Nat.testBit_mul_pow_two_add c (Nat.two_pow_pos k) j
      simpa [hj] using h1
    simp [hj, h0]
  · have h0 : Nat.testBit b j = false := by
      apply Nat.testBit_lt_two_pow
      exact lt_of_lt_of_le hb (Nat.pow_le_pow_right (by omega) (by omega))
    have h1 : Nat.testBit (2 ^ k * c) j = Nat.testBit c (j - k) := by
      have h2 := Nat.testBit_mul_pow_two_add c (Nat.two_pow_pos k) j
      simpa [hj] using h2
    simp [hj, h0, h1]

theorem pack_eq {r g b : ℕ} (hr : r ≤ 255) (hg : g ≤ 255) (hb : b ≤ 255) :
    (1 <<< 24) ||| (r <<< 16) ||| (g <<< 8) ||| b
      = 16777216 + 65536 * r + 256 * g + b := by
  have e1 : (1 <<< 24) ||| (r <<< 16) = 16777216 + 65536 * r := by
    have := lor_eq_add_of_dvd (a := 1 <<< 24) (b := r <<< 16) (k := 24)
      (by simp [Nat.shiftLeft_eq]) (by simp [Nat.shiftLeft_eq]; omega)
    simpa [Nat.shiftLeft_eq, Nat.mul_comm] using this
  have e2 : (16777216 + 65536 * r) ||| (g <<< 8) = 16777216 + 65536 * r + 256 * g := by
    have := lor_eq_add_of_dvd (a := 16777216 + 65536 * r) (b := g <<< 8) (k := 16)
      (by exact Dvd.intro (256 + r) (by ring)) (by simp [Nat.shiftLeft_eq]; omega)
    simpa [Nat.shiftLeft_eq, Nat.mul_comm] using this
  have e3 : (16777216 + 65536 * r + 256 * g) ||| b
      = 16777216 + 65536 * r + 256 * g + b := by
    exact lor_eq_add_of_dvd (k := 8) (Dvd.intro (65536 + 256 * r + g) (by ring)) (by omega)
  rw [e1, e2, e3]

theorem natToHex_mul16 {m d : ℕ} (hm : 0 < m) (hd : d < 16) :
    natToHex (16 * m + d) = natToHex m ++ [Nat.digitChar d] := by
  rw [natToHex]
  have hlt : ¬(16 * m + d < 16) := by omega
  rw [dif_neg hlt]
  have h1 : (16 * m + d) / 16 = m := by omega
  have h2 : (16 * m + d) % 16 = d := by omega
  rw [h1, h2]

theorem natToHex_pack {r g b : ℕ} (hr : r ≤ 255) (hg : g ≤ 255) (hb : b ≤ 255) :
    natToHex (16777216 + 65536 * r + 256 * g + b)
      = ['1', Nat.digitChar (r / 16), Nat.digitChar (r % 16),
          Nat.digitChar (g / 16), Nat.digitChar (g % 16),
          Nat.digitChar (b / 16), Nat.digitChar (b % 16)] := by
  have e : 16777216 + 65536 * r + 256 * g + b
      = 16 * (16 * (16 * (16 * (16 * (16 * 1 + r / 16) + r % 16) + g / 16)
          + g % 16) + b / 16) + b % 16 := by omega
  rw [e]
  rw [natToHex_mul16 (by omega) (by omega)]
  rw [natToHex_mul16 (by omega) (by omega)]
  rw [natToHex_mul16 (by omega) (by omega)]
  rw [natToHex_mul16 (by omega) (by omega)]
  rw [natToHex_mul16 (by omega) (by omega)]
  rw [natToHex_mul16 (by omega) (by omega)]
  have h1 : natToHex 1 = ['1'] := by rw [natToHex]; rfl
  rw [h1]
  simp

theorem rgbToHex_data {r g b : ℕ} (hr : r ≤ 255) (hg : g ≤ 255) (hb : b ≤ 255) :
    rgbToHex r g b = String.mk ['#',
      Char.toUpper (Nat.digitChar (r / 16)), Char.toUpper (Nat.digitChar (r % 16)),
      Char.toUpper (Nat.digitChar (g / 16)), Char.toUpper (Nat.digitChar (g % 16)),
      Char.toUpper (Nat.digitChar (b / 16)), Char.toUpper (Nat.digitChar (b % 16))] := by
  unfold rgbToHex
  rw [pack_eq hr hg hb, natToHex_pack hr hg hb]
  rfl

theorem isHexChar_toUpper_digitChar {k : ℕ} (hk : k < 16) :
    isHexChar (Char.toUpper (Nat.digitChar k)) = true := by
  interval_cases k <;> decide

theorem hexVal_toUpper_digitChar {k : ℕ} (hk : k < 16) :
    hexVal (Char.toUpper (Nat.digitChar k)) = k := by
  interval_cases k <;> decide

theorem hexToRgb_mk_hash (cs : List Char) :
    hexToRgb (String.mk ('#' :: cs)) = parseHex6 cs := rfl

/-- C7: For all integers r, g, b in [0,255], hexToRgb(rgbToHex(r,g,b))
succeeds and returns exactly {r, g, b}. -/
theorem hexToRgb_rgbToHex_roundtrip {r g b : ℕ}
    (hr : r ≤ 255) (hg : g ≤ 255) (hb : b ≤ 255) :
    hexToRgb (rgbToHex r g b) = some ⟨r, g, b⟩ := by
  rw [rgbToHex_data hr hg hb]
  rw [hexToRgb_mk_hash]
  rw [parseHex6]
  rw [isHexChar_toUpper_digitChar (by omega), isHexChar_toUpper_digitChar (by omega),
    isHexChar_toUpper_digitChar (by omega), isHexChar_toUpper_digitChar (by omega),
    isHexChar_toUpper_digitChar (by omega), isHexChar_toUpper_digitChar (by omega)]
  simp only [Bool.and_self, if_true]
  unfold parsePair
  rw [hexVal_toUpper_digitChar (by omega), hexVal_toUpper_digitChar (by omega),
    hexVal_toUpper_digitChar (by omega), hexVal_toUpper_digitChar (by omega),
    hexVal_toUpper_digitChar (by omega), hexVal_toUpper_digitChar (by omega)]
  have er : 16 * (r / 16) + r % 16 = r := by omega
  have eg : 16 * (g / 16) + g % 16 = g := by omega
  have eb : 16 * (b / 16) + b % 16 = b := by omega
  rw [er, eg, eb]

/-- Witness for C7 at the concrete channel triple (123, 196, 232). -/
theorem hexToRgb_rgbToHex_roundtrip_witness :
    hexToRgb (rgbToHex 123 196 232) = some ⟨123, 196, 232⟩ :=
  hexToRgb_rgbToHex_roundtrip (by decide) (by decide) (by decide)

/-! ### The grade table and luminance (real-number model) -/

/-- One entry of LUMINANCE_RANGES: a grade with its luminance band. -/
structure GradeRange where
  grade : ℕ
  min : ℝ
  max : ℝ

/-- The luminance ranges for each grade, exactly as listed in the source. -/
noncomputable def LUMINANCE_RANGES : List GradeRange :=
  [⟨0, 1, 1⟩, ⟨5, 0.85, 0.93⟩, ⟨10, 0.75, 0.82⟩, ⟨20, 0.5, 0.65⟩,
   ⟨30, 0.35, 0.45⟩, ⟨40, 0.225, 0.3⟩, ⟨50, 0.175, 0.183⟩, ⟨60, 0.1, 0.125⟩,
   ⟨70, 0.05, 0.07⟩, ⟨80, 0.02, 0.04⟩, ⟨90, 0.005, 0.015⟩, ⟨100, 0, 0⟩]

def GRADES : List ℕ := [0, 5, 10, 20, 30, 40, 50, 60, 70, 80, 90, 100]

/-- The per-channel sRGB→linear transform of calculateLuminance (the same
expression is written inline three times in the source). -/
noncomputable def srgbToLinear (c : ℝ) : ℝ :=
  if c ≤ 0.03928 then c / 12.92 else ((c + 0.055) / 1.055) ^ (2.4 : ℝ)

/-- calculateLuminance: WCAG relative luminance. -/
noncomputable def calculateLuminance (r g b : ℝ) : ℝ :=
  0.2126 * srgbToLinear (r / 255) + 0.7152 * srgbToLinear (g / 255)
    + 0.0722 * srgbToLinear (b / 255)

/-- Number.MAX_VALUE, the initial minDifference of determineGrade. -/
noncomputable def MAX_VALUE : ℝ := 17976931348623157 * 10 ^ (292 : ℕ)

/-- The result record of determineGrade (absent optional fields are none). -/
structure GradeInfo where
  grade : ℕ
  exact : Bool
  lowerGrade : Option ℕ
  higherGrade : Option ℕ
deriving Repr, DecidableEq

/-- The source sorts a copy of LUMINANCE_RANGES by min, descending.  The
table is already strictly descending in min (lemma
`LUMINANCE_RANGES_min_descending`), so the sort leaves it unchanged. -/
noncomputable def sortedRanges : List GradeRange := LUMINANCE_RANGES

theorem LUMINANCE_RANGES_min_descending :
    LUMINANCE_RANGES.Pairwise (fun a b => b.min < a.min) := by
  rw [LUMINANCE_RANGES]
  norm_num [List.pairwise_cons]

/-- The indexed break-on-first-match loop of findNeighboringGrades; `prev` is
the grade of the previous band of the scan (`sortedRanges[i-1]`), `none`
at the start.  Returns (lowerGrade, higherGrade); `(none, none)` when no
band satisfies `luminance > band.min` (both variables still null). -/
noncomputable def scanNeighbors (luminance : ℝ) :
    List GradeRange → Option ℕ → Option ℕ × Option ℕ
  | [], _ => (none, none)
  | r :: rest, prev =>
    if luminance > r.min then (some r.grade, prev)
    else scanNeighbors luminance rest (some r.grade)

/-- findNeighboringGrades: scan sortedRanges for the first band with
min < luminance; when there is none, lowerGrade falls back to the grade of
the last band of sortedRanges. -/
noncomputable def findNeighboringGrades (luminance : ℝ) : Option ℕ × Option ℕ :=
  match scanNeighbors luminance sortedRanges none with
  | (none, hg) => (some ((sortedRanges.getLastD ⟨100, 0, 0⟩).grade), hg)
  | res => res

/-- The closest-grade fold of determineGrade: the running (closestGrade,
minDifference) pair, updated whenever a band midpoint is strictly closer. -/
noncomputable def closestFold (luminance : ℝ) (acc : ℕ × ℝ) (range : GradeRange) : ℕ × ℝ :=
  let midRange := (range.min + range.max) / 2
  let difference := |luminance - midRange|
  if difference < acc.2 then (range.grade, difference) else acc

/-- determineGrade: an exact band match wins; otherwise the grade whose band
midpoint is closest (first minimal difference in table order), together
with the neighboring grades. -/
noncomputable def determineGrade (luminance : ℝ) : GradeInfo :=
  match LUMINANCE_RANGES.find?
      (fun range => decide (luminance ≥ range.min ∧ luminance ≤ range.max)) with
  | some range => ⟨range.grade, true, none, none⟩
  | none =>
    let best := LUMINANCE_RANGES.foldl (closestFold luminance) (50, MAX_VALUE)
    let nb := findNeighboringGrades luminance
    ⟨best.1, false, nb.1, nb.2⟩

/-! ### Characterizing determineGrade (claim C2) -/

/-- Distance from a luminance to a band midpoint, as computed in the
closest-grade loop of determineGrade. -/
noncomputable def bandDiff (l : ℝ) (r : GradeRange) : ℝ := |l - (r.min + r.max) / 2|

theorem closestFold_eq (l : ℝ) (acc : ℕ × ℝ) (r : GradeRange) :
    closestFold l acc r = if bandDiff l r < acc.2 then (r.grade, bandDiff l r) else acc := rfl

/-- The luminance bands of the table are pairwise separated: every later
band ends strictly below where an earlier band starts. -/
theorem LUMINANCE_RANGES_separated :
    LUMINANCE_RANGES.Pairwise (fun a b => b.max < a.min) := by
  rw [LUMINANCE_RANGES]
  norm_num [List.pairwise_cons]

/-- On a list of pairwise separated bands, find? returns the band that
contains the luminance. -/
theorem find?_band {l : ℝ} :
    ∀ (xs : List GradeRange), xs.Pairwise (fun a b => b.max < a.min) →
      ∀ B ∈ xs, B.min ≤ l → l ≤ B.max →
        xs.find? (fun r => decide (l ≥ r.min ∧ l ≤ r.max)) = some B := by
  intro xs
  induction xs with
  | nil => intro _ B hB; cases hB
  | cons x rest ih =>
    intro hp B hB h1 h2
    rcases List.mem_cons.1 hB with rfl | hmem
    · exact List.find?_cons_of_pos _ (by simp; constructor <;> assumption)
    · have hsep : B.max < x.min := (List.pairwise_cons.1 hp).1 B hmem
      rw [List.find?_cons_of_neg _ (by simp; intro hge; linarith)]
      exact ih (List.pairwise_cons.1 hp).2 B hmem h1 h2

/-- If no remaining band improves on the accumulator, the closest-grade
fold leaves the accumulator unchanged. -/
theorem closestFold_const (l : ℝ) :
    ∀ (xs : List GradeRange) (acc : ℕ × ℝ),
      (∀ r ∈ xs, acc.2 ≤ bandDiff l r) → xs.foldl (closestFold l) acc = acc := by
  intro xs
  induction xs with
  | nil => intro acc _; rfl
  | cons x rest ih =>
    intro acc hacc
    rw [List.foldl_cons, closestFold_eq]
    rw [if_neg (by exact not_lt.2 (hacc x (by simp)))]
    exact ih acc (fun r hr => hacc r (by simp [hr]))

/-- The closest-grade fold returns the first band of minimal midpoint
distance, provided some band beats the starting accumulator. -/
theorem closestFold_spec (l : ℝ) :
    ∀ (xs : List GradeRange) (acc : ℕ × ℝ),
      (∃ r ∈ xs, bandDiff l r < acc.2) →
      ∃ i, ∃ hi : i < xs.length,
        xs.foldl (closestFold l) acc = (xs[i].grade, bandDiff l xs[i]) ∧
        bandDiff l xs[i] < acc.2 ∧
        (∀ j, ∀ hj : j < xs.length, bandDiff l xs[i] ≤ bandDiff l xs[j]) ∧
        (∀ j, ∀ hj : j < xs.length, j < i → bandDiff l xs[i] < bandDiff l xs[j]) := by
  intro xs
  induction xs with
  | nil => intro acc ⟨r, hr, _⟩; cases hr
  | cons x rest ih =>
    intro acc hex
    rw [List.foldl_cons, closestFold_eq]
    by_cases hx : bandDiff l x < acc.2
    · rw [if_pos hx]
      by_cases hrest : ∃ r ∈ rest, bandDiff l r < bandDiff l x
      · obtain ⟨i, hi, heq, hlt, hall, hfirst⟩ := ih (x.grade, bandDiff l x) hrest
        refine ⟨i + 1, by simpa using Nat.succ_lt_succ hi, by simpa using heq, ?_, ?_, ?_⟩
        · exact lt_trans hlt hx
        · intro j hj
          match j with
          | 0 => simpa using le_of_lt hlt
          | j + 1 => simpa using hall j (by simpa using Nat.lt_of_succ_lt_succ hj)
        · intro j hj hji
          match j with
          | 0 => simpa using hlt
          | j + 1 =>
            have hji2 : j < i := Nat.lt_of_succ_lt_succ hji
            have hj2 : j < rest.length := by simpa using Nat.lt_of_succ_lt_succ hj
            have := hfirst j hj2 hji2
            simpa using this
      · push_neg at hrest
        rw [closestFold_const l rest (x.grade, bandDiff l x) hrest]
        refine ⟨0, by simp, by simp, by simpa using hx, ?_, ?_⟩
        · intro j hj
          match j with
          | 0 => simp
          | j + 1 => simpa using hrest _ (by simp [List.getElem_mem])
        · intro j hj hji; omega
    · rw [if_neg hx]
      have hex' : ∃ r ∈ rest, bandDiff l r < acc.2 := by
        obtain ⟨r, hr, hrlt⟩ := hex
        rcases List.mem_cons.1 hr with rfl | hr'
        · exact absurd hrlt hx
        · exact ⟨r, hr', hrlt⟩
      obtain ⟨i, hi, heq, hlt, hall, hfirst⟩ := ih acc hex'
      refine ⟨i + 1, by simpa using Nat.succ_lt_succ hi, by simpa using heq,
        hlt, ?_, ?_⟩
      · intro j hj
        match j with
        | 0 =>
          have : acc.2 ≤ bandDiff l x := not_lt.1 hx
          simpa using le_trans (le_of_lt hlt) this
        | j + 1 => simpa using hall j (by simpa using Nat.lt_of_succ_lt_succ hj)
      · intro j hj hji
        match j with
        | 0 =>
          have : acc.2 ≤ bandDiff l x := not_lt.1 hx
          simpa using lt_of_lt_of_le hlt this
        | j + 1 =>
          have hji2 : j < i := Nat.lt_of_succ_lt_succ hji
          have hj2 : j < rest.length := by simpa using Nat.lt_of_succ_lt_succ hj
          have := hfirst j hj2 hji2
          simpa using this

/-- C2: when a luminance lies inside some band (inclusive), determineGrade
returns that band's grade with exact = true; otherwise it returns
exact = false and the grade of the band whose midpoint is closest, the
earliest band in table order winning ties (strictly smaller difference
than every earlier band, no larger than every band). -/
theorem determineGrade_spec (l : ℝ) (hl0 : 0 ≤ l) (hl1 : l ≤ 1) :
    (∀ B ∈ LUMINANCE_RANGES, B.min ≤ l → l ≤ B.max →
        determineGrade l = ⟨B.grade, true, none, none⟩) ∧
      ((∀ B ∈ LUMINANCE_RANGES, ¬(B.min ≤ l ∧ l ≤ B.max)) →
        (determineGrade l).exact = false ∧
        ∃ i, ∃ hi : i < LUMINANCE_RANGES.length,
          (determineGrade l).grade = LUMINANCE_RANGES[i].grade ∧
          (∀ j, ∀ hj : j < LUMINANCE_RANGES.length,
            bandDiff l LUMINANCE_RANGES[i] ≤ bandDiff l LUMINANCE_RANGES[j]) ∧
          (∀ j, ∀ hj : j < LUMINANCE_RANGES.length, j < i →
            bandDiff l LUMINANCE_RANGES[i] < bandDiff l LUMINANCE_RANGES[j])) := by
  constructor
  · intro B hB hmin hmax
    unfold determineGrade
    rw [find?_band LUMINANCE_RANGES LUMINANCE_RANGES_separated B hB hmin hmax]
  · intro hnone
    have hf : LUMINANCE_RANGES.find?
        (fun r => decide (l ≥ r.min ∧ l ≤ r.max)) = none := by
      rw [List.find?_eq_none]
      intro x hx
      simpa using hnone x hx
    have hD : determineGrade l =
        ⟨(LUMINANCE_RANGES.foldl (closestFold l) (50, MAX_VALUE)).1, false,
          (findNeighboringGrades l).1, (findNeighboringGrades l).2⟩ := by
      unfold determineGrade
      rw [hf]
    have hM : (1 : ℝ) ≤ 17976931348623157 * 10 ^ (292 : ℕ) := by norm_num
    have hex : ∃ r ∈ LUMINANCE_RANGES, bandDiff l r < MAX_VALUE := by
      refine ⟨⟨0, 1, 1⟩, by rw [LUMINANCE_RANGES]; exact List.mem_cons_self _ _, ?_⟩
      unfold bandDiff MAX_VALUE
      have he : ((1 : ℝ) + 1) / 2 = 1 := by norm_num
      rw [he, abs_of_nonpos (by linarith)]
      linarith
    obtain ⟨i, hi, heq, hlt, hall, hfirst⟩ :=
      closestFold_spec l LUMINANCE_RANGES (50, MAX_VALUE) hex
    rw [hD]
    refine ⟨rfl, i, hi, ?_, hall, hfirst⟩
    rw [heq]

/-- Witness for C2 at luminance 0.9, inside the grade-5 band [0.85, 0.93]. -/
theorem determineGrade_spec_witness : determineGrade 0.9 = ⟨5, true, none, none⟩ := by
  have h := (determineGrade_spec 0.9 (by norm_num) (by norm_num)).1
  refine h ⟨5, 0.85, 0.93⟩ ?_ (by norm_num) (by norm_num)
  rw [LUMINANCE_RANGES]
  exact List.mem_cons_of_mem _ (List.mem_cons_self _ _)

/-! ### Neighboring grades (claim C10) -/

theorem scanNeighbors_inner {l : ℝ} (h0 : 0 < l) (h1 : l < 1) :
    ∃ a b, scanNeighbors l sortedRanges none = (some a, some b) := by
  unfold sortedRanges
  rw [LUMINANCE_RANGES]
  simp only [scanNeighbors]
  have c1 : ¬l > 1 := by linarith
  rw [if_neg c1]
  by_cases c2 : l > 0.85
  · rw [if_pos c2]; exact ⟨_, _, rfl⟩
  rw [if_neg c2]
  by_cases c3 : l > 0.75
  · rw [if_pos c3]; exact ⟨_, _, rfl⟩
  rw [if_neg c3]
  by_cases c4 : l > 0.5
  · rw [if_pos c4]; exact ⟨_, _, rfl⟩
  rw [if_neg c4]
  by_cases c5 : l > 0.35
  · rw [if_pos c5]; exact ⟨_, _, rfl⟩
  rw [if_neg c5]
  by_cases c6 : l > 0.225
  · rw [if_pos c6]; exact ⟨_, _, rfl⟩
  rw [if_neg c6]
  by_cases c7 : l > 0.175
  · rw [if_pos c7]; exact ⟨_, _, rfl⟩
  rw [if_neg c7]
  by_cases c8 : l > 0.1
  · rw [if_pos c8]; exact ⟨_, _, rfl⟩
  rw [if_neg c8]
  by_cases c9 : l > 0.05
  · rw [if_pos c9]; exact ⟨_, _, rfl⟩
  rw [if_neg c9]
  by_cases c10 : l > 0.02
  · rw [if_pos c10]; exact ⟨_, _, rfl⟩
  rw [if_neg c10]
  by_cases c11 : l > 0.005
  · rw [if_pos c11]; exact ⟨_, _, rfl⟩
  rw [if_neg c11]
  rw [if_pos h0]
  exact ⟨_, _, rfl⟩

/-- C10: for every luminance strictly between 0 and 1 that determineGrade
classifies inexactly, both neighboring grades are present (the null
fallbacks of findNeighboringGrades are unreachable). -/
theorem determineGrade_neighbors_nonnull (l : ℝ) (h0 : 0 < l) (h1 : l < 1)
    (hne : (determineGrade l).exact = false) :
    (determineGrade l).lowerGrade ≠ none ∧ (determineGrade l).higherGrade ≠ none := by
  unfold determineGrade at hne ⊢
  cases hfind : LUMINANCE_RANGES.find?
      (fun r => decide (l ≥ r.min ∧ l ≤ r.max)) with
  | some range =>
    rw [hfind] at hne
    simp at hne
  | none =>
    obtain ⟨a, b, hab⟩ := scanNeighbors_inner h0 h1
    have hng : findNeighboringGrades l = (some a, some b) := by
      unfold findNeighboringGrades
      rw [hab]
    simp [hng]

/-- Witness for C10 at luminance 0.32, in the gap between the grade-40 band
[0.225, 0.3] and the grade-30 band [0.35, 0.45]. -/
theorem determineGrade_neighbors_nonnull_witness :
    (determineGrade 0.32).lowerGrade ≠ none ∧ (determineGrade 0.32).higherGrade ≠ none := by
  have hf : LUMINANCE_RANGES.find?
      (fun r => decide ((0.32 : ℝ) ≥ r.min ∧ (0.32 : ℝ) ≤ r.max)) = none := by
    rw [List.find?_eq_none]
    intro x hx
    rw [LUMINANCE_RANGES] at hx
    fin_cases hx <;> norm_num
  have hexact : (determineGrade 0.32).exact = false := by
    unfold determineGrade
    rw [hf]
  exact determineGrade_neighbors_nonnull 0.32 (by norm_num) (by norm_num) hexact

/-! ### Luminance values at the extremes -/

theorem srgbToLinear_one : srgbToLinear 1 = 1 := by
  unfold srgbToLinear
  rw [if_neg (by norm_num)]
  have h : ((1 : ℝ) + 0.055) / 1.055 = 1 := by norm_num
  rw [h, Real.one_rpow]

theorem srgbToLinear_zero : srgbToLinear 0 = 0 := by
  unfold srgbToLinear
  rw [if_pos (by norm_num)]
  norm_num

theorem calculateLuminance_white : calculateLuminance 255 255 255 = 1 := by
  unfold calculateLuminance
  have h : (255 : ℝ) / 255 = 1 := by norm_num
  rw [h, srgbToLinear_one]
  norm_num

theorem calculateLuminance_black : calculateLuminance 0 0 0 = 0 := by
  unfold calculateLuminance
  have h : (0 : ℝ) / 255 = 0 := by norm_num
  rw [h, srgbToLinear_zero]
  norm_num

theorem determineGrade_one : determineGrade 1 = ⟨0, true, none, none⟩ := by
  refine (determineGrade_spec 1 (by norm_num) (by norm_num)).1 ⟨0, 1, 1⟩ ?_ (by norm_num) (by norm_num)
  rw [LUMINANCE_RANGES]
  exact List.mem_cons_self _ _

theorem determineGrade_zero : determineGrade 0 = ⟨100, true, none, none⟩ := by
  refine (determineGrade_spec 0 (by norm_num) (by norm_num)).1 ⟨100, 0, 0⟩ ?_ (by norm_num) (by norm_num)
  rw [LUMINANCE_RANGES]
  simp

/-! ### Contrast ratio (claim C8) -/

/-- calculateContrastRatio: 1 when either hex fails to parse, else the WCAG
ratio of the lighter to the darker luminance. -/
noncomputable def calculateContrastRatio (color1 color2 : String) : ℝ :=
  match hexToRgb color1, hexToRgb color2 with
  | some rgb1, some rgb2 =>
    let luminance1 := calculateLuminance rgb1.r rgb1.g rgb1.b
    let luminance2 := calculateLuminance rgb2.r rgb2.g rgb2.b
    let lighter := max luminance1 luminance2
    let darker := min luminance1 luminance2
    (lighter + 0.05) / (darker + 0.05)
  | _, _ => 1

/-- C8: calculateContrastRatio returns 1 when either string fails hex
parsing; when both parse it returns (L_light + 0.05) / (L_dark + 0.05)
with L_light/L_dark the larger/smaller luminance. -/
theorem calculateContrastRatio_spec (color1 color2 : String) :
    ((hexToRgb color1 = none ∨ hexToRgb color2 = none) →
        calculateContrastRatio color1 color2 = 1) ∧
      (∀ rgb1 rgb2, hexToRgb color1 = some rgb1 → hexToRgb color2 = some rgb2 →
        calculateContrastRatio color1 color2 =
          (max (calculateLuminance rgb1.r rgb1.g rgb1.b)
              (calculateLuminance rgb2.r rgb2.g rgb2.b) + 0.05) /
            (min (calculateLuminance rgb1.r rgb1.g rgb1.b)
              (calculateLuminance rgb2.r rgb2.g rgb2.b) + 0.05)) := by
  constructor
  · intro h
    unfold calculateContrastRatio
    rcases h with h | h
    · rw [h]
    · rw [h]
      cases hexToRgb color1 <;> rfl
  · intro rgb1 rgb2 h1 h2
    unfold calculateContrastRatio
    rw [h1, h2]

/-! ### HSL conversions and color synthesis -/

/-- An RGB triple as produced by hslToRgb: Math.round gives integers that are
not yet known to lie in [0, 255] (claim C9 establishes that they do). -/
structure RGBi where
  r : ℤ
  g : ℤ
  b : ℤ
deriving Repr, DecidableEq

/-- The local hue2rgb helper of hslToRgb. -/
noncomputable def hue2rgb (p q t : ℝ) : ℝ :=
  let t1 := if t < 0 then t + 1 else t
  let t2 := if t1 > 1 then t1 - 1 else t1
  if t2 < 1 / 6 then p + (q - p) * 6 * t2
  else if t2 < 1 / 2 then q
  else if t2 < 2 / 3 then p + (q - p) * (2 / 3 - t2) * 6
  else p

/-- hslToRgb: piecewise hue interpolation, each channel rounded. -/
noncomputable def hslToRgb (h s l : ℝ) : RGBi :=
  let rgb : ℝ × ℝ × ℝ :=
    if s = 0 then (l, l, l)
    else
      let q := if l < 0.5 then l * (1 + s) else l + s - l * s
      let p := 2 * l - q
      (hue2rgb p q (h + 1 / 3), hue2rgb p q h, hue2rgb p q (h - 1 / 3))
  ⟨round (rgb.1 * 255), round (rgb.2.1 * 255), round (rgb.2.2 * 255)⟩

/-- rgbToHsl: standard min/max channel decomposition (hue 0 when r = g = b);
the switch on the maximal channel tests r, then g, then b. -/
noncomputable def rgbToHsl (r g b : ℝ) : ℝ × ℝ × ℝ :=
  let r1 := r / 255
  let g1 := g / 255
  let b1 := b / 255
  let maxC := max r1 (max g1 b1)
  let minC := min r1 (min g1 b1)
  let l := (maxC + minC) / 2
  if maxC = minC then (0, 0, l)
  else
    let d := maxC - minC
    let s := if l > 0.5 then d / (2 - maxC - minC) else d / (maxC + minC)
    let h := if maxC = r1 then (g1 - b1) / d + (if g1 < b1 then 6 else 0)
      else if maxC = g1 then (b1 - r1) / d + 2
      else (r1 - g1) / d + 4
    (h / 6, s, l)

/-- adjustSaturationForPastel: 0 at the extremes, otherwise a blended smooth
curve drives a saturation multiplier and cap. -/
noncomputable def adjustSaturationForPastel (saturation luminance : ℝ) (grade : ℕ) : ℝ :=
  if grade = 0 ∨ grade = 100 then 0
  else
    let baseSaturation := max saturation 0.08
    let normalizedGrade : ℝ := (grade : ℝ) / 100
    let smoothCurve := normalizedGrade ^ (1.6 : ℝ)
    let ultraSmoothFactor := normalizedGrade * normalizedGrade * normalizedGrade
    let blendedFactor := smoothCurve * 0.7 + ultraSmoothFactor * 0.3
    let saturationMultiplier := 0.45 + blendedFactor * 0.35
    let maxSaturation := 0.4 + blendedFactor * 0.3
    min (baseSaturation * saturationMultiplier) maxSaturation

/-- The tolerance chosen by generateColorWithLuminance: 0.002 for grades ≤ 20,
0.001 for grades ≤ 40 and for every other case (including no grade). -/
noncomputable def toleranceFor (grade : Option ℕ) : ℝ :=
  match grade with
  | none => 0.001
  | some g => if g ≤ 20 then 0.002 else if g ≤ 40 then 0.001 else 0.001

/-- The luminance-bracket starting midpoint of generateColorWithLuminance. -/
noncomputable def initialMid (targetLuminance : ℝ) : ℝ :=
  if targetLuminance > 0.9 then 0.95
  else if targetLuminance > 0.7 then 0.85
  else if targetLuminance > 0.3 then 0.6
  else if targetLuminance > 0.1 then 0.4
  else 0.2

/-- Luminance of the color synthesized at one lightness midpoint (the
`rgb`/`luminance` locals of the loop body of generateColorWithLuminance). -/
noncomputable def lumAt (hue adjSat mid : ℝ) : ℝ :=
  calculateLuminance ((hslToRgb hue adjSat mid).r : ℝ)
    ((hslToRgb hue adjSat mid).g : ℝ) ((hslToRgb hue adjSat mid).b : ℝ)

/-- Hex color produced at one lightness midpoint.  The `Int.toNat` on the
rounded channels models the JavaScript number being handed to the
bit-packing of rgbToHex; claim C9 shows the channels lie in [0, 255],
where toNat is the identity. -/
noncomputable def colorAt (hue adjSat mid : ℝ) : String :=
  rgbToHex (hslToRgb hue adjSat mid).r.toNat
    (hslToRgb hue adjSat mid).g.toNat (hslToRgb hue adjSat mid).b.toNat

/-- The while-loop of generateColorWithLuminance, with fuel
maxIterations − iterations; when the fuel runs out the color at the final
midpoint is returned. -/
noncomputable def bisectLoop (hue adjSat targetLuminance tolerance : ℝ) :
    ℕ → ℝ → ℝ → ℝ → String
  | 0, _, _, mid => colorAt hue adjSat mid
  | n + 1, low, high, mid =>
    if |lumAt hue adjSat mid - targetLuminance| < tolerance then
      colorAt hue adjSat mid
    else if lumAt hue adjSat mid > targetLuminance then
      bisectLoop hue adjSat targetLuminance tolerance n low mid ((low + mid) / 2)
    else
      bisectLoop hue adjSat targetLuminance tolerance n mid high ((mid + high) / 2)

/-- generateColorWithLuminance: optional pastel saturation adjustment, then
up to 30 bisection iterations on HSL lightness from low = 0, high = 1 and
the heuristic starting midpoint. -/
noncomputable def generateColorWithLuminance
    (hue saturation targetLuminance : ℝ) (grade : Option ℕ) : String :=
  let adjustedSaturation := match grade with
    | some g => adjustSaturationForPastel saturation targetLuminance g
    | none => saturation
  bisectLoop hue adjustedSaturation targetLuminance (toleranceFor grade)
    30 0 1 (initialMid targetLuminance)

/-! ### The palette builder -/

structure PaletteEntry where
  grade : ℕ
  color : String
  luminance : ℝ
  isInputColor : Bool

/-- The body of the palette loop of generatePalette, producing the entry for
one grade range. -/
noncomputable def paletteEntryFor (hexColor : String) (inputLuminance : ℝ)
    (inputGradeInfo : GradeInfo) (h s : ℝ) (range : GradeRange) : PaletteEntry :=
  if range.grade = inputGradeInfo.grade ∧ inputGradeInfo.exact = true then
    ⟨range.grade, toUpperStr hexColor, inputLuminance, true⟩
  else
    let targetLuminance :=
      if range.grade ≤ 20 then range.min + (range.max - range.min) * 0.25
      else if range.grade ≤ 40 then range.min + (range.max - range.min) * 0.4
      else (range.min + range.max) / 2
    if range.grade = 0 then ⟨0, "#FFFFFF", 1, false⟩
    else if range.grade = 100 then ⟨100, "#000000", 0, false⟩
    else
      let color := generateColorWithLuminance h s targetLuminance (some range.grade)
      let actualLuminance := match hexToRgb color with
        | some actualRgb =>
          calculateLuminance actualRgb.r actualRgb.g actualRgb.b
        | none => 0
      ⟨range.grade, color, actualLuminance, false⟩

/-- generatePalette: parse the input (soft-failing to an empty palette and a
default grade-50 inexact classification), classify its luminance, take its
hue and saturation, and emit one entry per grade range in table order. -/
noncomputable def generatePalette (hexColor : String) : List PaletteEntry × GradeInfo :=
  match hexToRgb hexColor with
  | none => ([], ⟨50, false, none, none⟩)
  | some rgb =>
    let inputLuminance := calculateLuminance rgb.r rgb.g rgb.b
    let inputGradeInfo := determineGrade inputLuminance
    let hsl := rgbToHsl rgb.r rgb.g rgb.b
    (LUMINANCE_RANGES.map
        (paletteEntryFor hexColor inputLuminance inputGradeInfo hsl.1 hsl.2.1),
      inputGradeInfo)

/-! ### Pastel saturation adjustment (claim C5) -/

/-- C5: adjustSaturationForPastel returns 0 at grades 0 and 100; for any
intermediate grade g it returns
min(max(s, 0.08) * (0.45 + 0.35 b), 0.4 + 0.3 b) with
b = 0.7 (g/100)^1.6 + 0.3 (g/100)^3, and the saturation multiplier
0.45 + 0.35 b lies in [0.45, 0.80] while the cap 0.4 + 0.3 b lies in
[0.4, 0.7]. -/
theorem adjustSaturationForPastel_spec (saturation luminance : ℝ) (grade : ℕ) :
    adjustSaturationForPastel saturation luminance 0 = 0 ∧
      adjustSaturationForPastel saturation luminance 100 = 0 ∧
      (0 < grade → grade < 100 →
        adjustSaturationForPastel saturation luminance grade =
          min (max saturation 0.08 *
              (0.45 + 0.35 * (0.7 * ((grade : ℝ) / 100) ^ (1.6 : ℝ)
                + 0.3 * ((grade : ℝ) / 100) ^ 3)))
            (0.4 + 0.3 * (0.7 * ((grade : ℝ) / 100) ^ (1.6 : ℝ)
                + 0.3 * ((grade : ℝ) / 100) ^ 3)) ∧
        0.45 ≤ 0.45 + 0.35 * (0.7 * ((grade : ℝ) / 100) ^ (1.6 : ℝ)
            + 0.3 * ((grade : ℝ) / 100) ^ 3) ∧
        0.45 + 0.35 * (0.7 * ((grade : ℝ) / 100) ^ (1.6 : ℝ)
            + 0.3 * ((grade : ℝ) / 100) ^ 3) ≤ 0.80 ∧
        0.4 ≤ 0.4 + 0.3 * (0.7 * ((grade : ℝ) / 100) ^ (1.6 : ℝ)
            + 0.3 * ((grade : ℝ) / 100) ^ 3) ∧
        0.4 + 0.3 * (0.7 * ((grade : ℝ) / 100) ^ (1.6 : ℝ)
            + 0.3 * ((grade : ℝ) / 100) ^ 3) ≤ 0.7) := by
  refine ⟨?_, ?_, ?_⟩
  · unfold adjustSaturationForPastel
    rw [if_pos (Or.inl rfl)]
  · unfold adjustSaturationForPastel
    rw [if_pos (Or.inr rfl)]
  · intro hg0 hg100
    have hne : ¬(grade = 0 ∨ grade = 100) := by omega
    have hng0 : (0 : ℝ) ≤ (grade : ℝ) / 100 := by positivity
    have hng1 : (grade : ℝ) / 100 ≤ 1 := by
      have h100 : (grade : ℝ) ≤ 100 := by exact_mod_cast le_of_lt hg100
      linarith
    have hr0 : (0 : ℝ) ≤ ((grade : ℝ) / 100) ^ (1.6 : ℝ) := Real.rpow_nonneg hng0 _
    have hr1 : ((grade : ℝ) / 100) ^ (1.6 : ℝ) ≤ 1 :=
      Real.rpow_le_one hng0 hng1 (by norm_num)
    have hc0 : (0 : ℝ) ≤ ((grade : ℝ) / 100) ^ 3 := by positivity
    have hc1 : ((grade : ℝ) / 100) ^ 3 ≤ 1 := pow_le_one₀ hng0 hng1
    refine ⟨?_, by linarith, by linarith, by linarith, by linarith⟩
    unfold adjustSaturationForPastel
    rw [if_neg hne]
    ring_nf


/-! ### Characterizing the bisection loop (claim C4) -/

/-- The loop state (low, high, mid) converges: the tolerance test fires at
the state's midpoint. -/
noncomputable def bisectHit (hue adjSat target tol : ℝ) (st : ℝ × ℝ × ℝ) : Prop :=
  |lumAt hue adjSat st.2.2 - target| < tol

/-- One narrowing step of the loop on the state (low, high, mid):
high = mid when the luminance overshoots, low = mid otherwise, then
mid = (low + high) / 2. -/
noncomputable def bisectStep (hue adjSat target : ℝ) (st : ℝ × ℝ × ℝ) : ℝ × ℝ × ℝ :=
  if lumAt hue adjSat st.2.2 > target then (st.1, st.2.2, (st.1 + st.2.2) / 2)
  else (st.2.2, st.2.1, (st.2.2 + st.2.1) / 2)

theorem bisectLoop_zero (hue adjSat target tol low high mid : ℝ) :
    bisectLoop hue adjSat target tol 0 low high mid = colorAt hue adjSat mid := rfl

theorem bisectLoop_succ_hit (hue adjSat target tol low high mid : ℝ) (n : ℕ)
    (h : bisectHit hue adjSat target tol (low, high, mid)) :
    bisectLoop hue adjSat target tol (n + 1) low high mid = colorAt hue adjSat mid := by
  simp only [bisectLoop]
  have h2 : |lumAt hue adjSat mid - target| < tol := h
  rw [if_pos h2]

theorem bisectLoop_succ_miss (hue adjSat target tol low high mid : ℝ) (n : ℕ)
    (h : ¬ bisectHit hue adjSat target tol (low, high, mid)) :
    bisectLoop hue adjSat target tol (n + 1) low high mid
      = bisectLoop hue adjSat target tol n
          (bisectStep hue adjSat target (low, high, mid)).1
          (bisectStep hue adjSat target (low, high, mid)).2.1
          (bisectStep hue adjSat target (low, high, mid)).2.2 := by
  simp only [bisectLoop]
  have h1 : ¬ |lumAt hue adjSat mid - target| < tol := h
  rw [if_neg h1]
  unfold bisectStep
  dsimp only
  by_cases h2 : lumAt hue adjSat mid > target
  · rw [if_pos h2, if_pos h2]
  · rw [if_neg h2, if_neg h2]

/-- When no state of the trajectory converges within the fuel, the loop
returns the color at the final midpoint. -/
theorem bisectLoop_miss (hue adjSat target tol : ℝ) :
    ∀ (n : ℕ) (st : ℝ × ℝ × ℝ),
      (∀ k, k < n →
        ¬ bisectHit hue adjSat target tol ((bisectStep hue adjSat target)^[k] st)) →
      bisectLoop hue adjSat target tol n st.1 st.2.1 st.2.2
        = colorAt hue adjSat (((bisectStep hue adjSat target)^[n] st)).2.2 := by
  intro n
  induction n with
  | zero => intro st _; rfl
  | succ n ih =>
    intro st hmiss
    have h0 : ¬ bisectHit hue adjSat target tol st := by
      simpa using hmiss 0 (by omega)
    rw [bisectLoop_succ_miss hue adjSat target tol st.1 st.2.1 st.2.2 n h0]
    have hrest : ∀ k, k < n →
        ¬ bisectHit hue adjSat target tol
          ((bisectStep hue adjSat target)^[k] (bisectStep hue adjSat target st)) := by
      intro k hk
      have h1 := hmiss (k + 1) (by omega)
      rw [Function.iterate_succ_apply] at h1
      exact h1
    have h2 := ih (bisectStep hue adjSat target st) hrest
    rw [Function.iterate_succ_apply]
    exact h2

/-- The loop returns the color of the first converging state of the
trajectory. -/
theorem bisectLoop_hit (hue adjSat target tol : ℝ) :
    ∀ (n : ℕ) (st : ℝ × ℝ × ℝ) (k : ℕ), k < n →
      bisectHit hue adjSat target tol ((bisectStep hue adjSat target)^[k] st) →
      (∀ j, j < k →
        ¬ bisectHit hue adjSat target tol ((bisectStep hue adjSat target)^[j] st)) →
      bisectLoop hue adjSat target tol n st.1 st.2.1 st.2.2
        = colorAt hue adjSat (((bisectStep hue adjSat target)^[k] st)).2.2 := by
  intro n
  induction n with
  | zero => intro st k hk; omega
  | succ n ih =>
    intro st k hk hhit hpre
    match k with
    | 0 =>
      have h0 : bisectHit hue adjSat target tol st := by simpa using hhit
      rw [bisectLoop_succ_hit hue adjSat target tol st.1 st.2.1 st.2.2 n h0]
      rfl
    | k + 1 =>
      have h0 : ¬ bisectHit hue adjSat target tol st := by
        simpa using hpre 0 (by omega)
      rw [bisectLoop_succ_miss hue adjSat target tol st.1 st.2.1 st.2.2 n h0]
      have hhit2 : bisectHit hue adjSat target tol
          ((bisectStep hue adjSat target)^[k] (bisectStep hue adjSat target st)) := by
        rw [← Function.iterate_succ_apply]
        exact hhit
      have hpre2 : ∀ j, j < k →
          ¬ bisectHit hue adjSat target tol
            ((bisectStep hue adjSat target)^[j] (bisectStep hue adjSat target st)) := by
        intro j hj
        have h1 := hpre (j + 1) (by omega)
        rw [Function.iterate_succ_apply] at h1
        exact h1
      have h2 := ih (bisectStep hue adjSat target st) k (by omega) hhit2 hpre2
      rw [Function.iterate_succ_apply]
      exact h2

/-- C4: generateColorWithLuminance runs at most 30 bisection iterations with
tolerance 0.002 for grades ≤ 20 and 0.001 otherwise; it returns the color
of the first midpoint whose luminance is within tolerance of the target
(narrowing high = mid on overshoot, low = mid on undershoot, then
mid = (low + high) / 2, as encoded by bisectStep), and when no midpoint
converges it returns the color at the final (30th) midpoint rather than
an error value. -/
theorem generateColorWithLuminance_spec (hue saturation targetLuminance : ℝ)
    (grade : Option ℕ) (adjSat : ℝ)
    (hadj : adjSat = (match grade with
      | some g => adjustSaturationForPastel saturation targetLuminance g
      | none => saturation)) :
    (toleranceFor none = 0.001 ∧
      ∀ g : ℕ, toleranceFor (some g) = if g ≤ 20 then 0.002 else 0.001) ∧
    (∀ k, k < 30 →
      bisectHit hue adjSat targetLuminance (toleranceFor grade)
        ((bisectStep hue adjSat targetLuminance)^[k] (0, 1, initialMid targetLuminance)) →
      (∀ j, j < k →
        ¬ bisectHit hue adjSat targetLuminance (toleranceFor grade)
          ((bisectStep hue adjSat targetLuminance)^[j] (0, 1, initialMid targetLuminance))) →
      generateColorWithLuminance hue saturation targetLuminance grade
        = colorAt hue adjSat
          (((bisectStep hue adjSat targetLuminance)^[k]
            (0, 1, initialMid targetLuminance))).2.2) ∧
    ((∀ k, k < 30 →
        ¬ bisectHit hue adjSat targetLuminance (toleranceFor grade)
          ((bisectStep hue adjSat targetLuminance)^[k] (0, 1, initialMid targetLuminance))) →
      generateColorWithLuminance hue saturation targetLuminance grade
        = colorAt hue adjSat
          (((bisectStep hue adjSat targetLuminance)^[30]
            (0, 1, initialMid targetLuminance))).2.2) := by
  have hgen : generateColorWithLuminance hue saturation targetLuminance grade
      = bisectLoop hue adjSat targetLuminance (toleranceFor grade)
          30 0 1 (initialMid targetLuminance) := by
    subst hadj
    rfl
  refine ⟨⟨rfl, ?_⟩, ?_, ?_⟩
  · intro g
    show (if g ≤ 20 then (0.002 : ℝ) else if g ≤ 40 then 0.001 else 0.001)
      = if g ≤ 20 then 0.002 else 0.001
    by_cases h1 : g ≤ 20
    · rw [if_pos h1, if_pos h1]
    · rw [if_neg h1, if_neg h1]
      by_cases h2 : g ≤ 40
      · rw [if_pos h2]
      · rw [if_neg h2]
  · intro k hk hhit hpre
    rw [hgen]
    exact bisectLoop_hit hue adjSat targetLuminance (toleranceFor grade)
      30 (0, 1, initialMid targetLuminance) k hk hhit hpre
  · intro hmiss
    rw [hgen]
    exact bisectLoop_miss hue adjSat targetLuminance (toleranceFor grade)
      30 (0, 1, initialMid targetLuminance) hmiss

/-- Witness for C4 with no grade supplied, where the adjusted saturation is
the input saturation itself. -/
theorem generateColorWithLuminance_spec_witness :
    (toleranceFor none = 0.001 ∧
      ∀ g : ℕ, toleranceFor (some g) = if g ≤ 20 then 0.002 else 0.001) ∧
    (∀ k, k < 30 →
      bisectHit 0 0.5 0.4 (toleranceFor none)
        ((bisectStep 0 0.5 0.4)^[k] (0, 1, initialMid 0.4)) →
      (∀ j, j < k →
        ¬ bisectHit 0 0.5 0.4 (toleranceFor none)
          ((bisectStep 0 0.5 0.4)^[j] (0, 1, initialMid 0.4))) →
      generateColorWithLuminance 0 0.5 0.4 none
        = colorAt 0 0.5 (((bisectStep 0 0.5 0.4)^[k] (0, 1, initialMid 0.4))).2.2) ∧
    ((∀ k, k < 30 →
        ¬ bisectHit 0 0.5 0.4 (toleranceFor none)
          ((bisectStep 0 0.5 0.4)^[k] (0, 1, initialMid 0.4))) →
      generateColorWithLuminance 0 0.5 0.4 none
        = colorAt 0 0.5 (((bisectStep 0 0.5 0.4)^[30] (0, 1, initialMid 0.4))).2.2) :=
  generateColorWithLuminance_spec 0 0.5 0.4 none 0.5 rfl

/-! ### Palette shape (claim C1) -/

theorem paletteEntryFor_grade (hexColor : String) (inputLuminance : ℝ)
    (info : GradeInfo) (h s : ℝ) (range : GradeRange) :
    (paletteEntryFor hexColor inputLuminance info h s range).grade = range.grade := by
  unfold paletteEntryFor
  split_ifs <;> simp_all

theorem paletteEntryFor_isInputColor (hexColor : String) (inputLuminance : ℝ)
    (info : GradeInfo) (h s : ℝ) (range : GradeRange) :
    (paletteEntryFor hexColor inputLuminance info h s range).isInputColor
      = (decide (range.grade = info.grade) && info.exact) := by
  unfold paletteEntryFor
  split_ifs with h1 h2 h3 <;> simp_all

theorem GRADES_nodup : GRADES.Nodup := by decide

theorem map_grade_LUMINANCE_RANGES :
    LUMINANCE_RANGES.map (fun r => r.grade) = GRADES := rfl

theorem countP_grade_le_one (G : ℕ) :
    ∀ (xs : List GradeRange), (xs.map (fun r => r.grade)).Nodup →
      xs.countP (fun r => decide (r.grade = G)) ≤ 1 := by
  intro xs
  induction xs with
  | nil => intro _; simp [List.countP_nil]
  | cons x rest ih =>
    intro hnd
    rw [List.map_cons, List.nodup_cons] at hnd
    rw [List.countP_cons]
    by_cases hx : x.grade = G
    · have hzero : rest.countP (fun r => decide (r.grade = G)) = 0 := by
        rw [List.countP_eq_zero]
        intro r hr
        simp only [decide_eq_true_eq]
        intro hEq
        exact hnd.1 (by
          rw [← hx] at hEq
          exact hEq ▸ List.mem_map_of_mem (fun r => r.grade) hr)
      simp [hzero, hx]
    · have h0 : (decide (x.grade = G) : Bool) = false := by simp [hx]
      rw [h0]
      simpa using ih hnd.2

theorem countP_congr_list {α : Type} {p q : α → Bool} :
    ∀ (l : List α), (∀ a ∈ l, p a = q a) → l.countP p = l.countP q := by
  intro l
  induction l with
  | nil => intro _; rfl
  | cons x rest ih =>
    intro hpq
    rw [List.countP_cons, List.countP_cons, hpq x (by simp),
      ih (fun a ha => hpq a (by simp [ha]))]

/-- Counterexample to C1 as stated for all strings: the three-character hex
string "ABC" is rejected by hexToRgb, and generatePalette then returns the
empty palette, not 12 entries. -/
theorem generatePalette_counterexample_C1 : (generatePalette "ABC").1.length ≠ 12 := by
  have h : hexToRgb "ABC" = none := rfl
  unfold generatePalette
  rw [h]
  simp

/-- C1 (amended): for every input string hexToRgb accepts, generatePalette
returns exactly 12 entries whose grades are exactly GRADES
(0, 5, ..., 100 in ascending order), and at most one entry is marked as
the input color. -/
theorem generatePalette_shape (s : String) (rgb : RGB) (hp : hexToRgb s = some rgb) :
    (generatePalette s).1.length = 12 ∧
      (generatePalette s).1.map (fun e => e.grade) = GRADES ∧
      (generatePalette s).1.countP (fun e => e.isInputColor) ≤ 1 := by
  have hg : generatePalette s =
      (LUMINANCE_RANGES.map
        (paletteEntryFor s
          (calculateLuminance rgb.r rgb.g rgb.b)
          (determineGrade (calculateLuminance rgb.r rgb.g rgb.b))
          (rgbToHsl rgb.r rgb.g rgb.b).1 (rgbToHsl rgb.r rgb.g rgb.b).2.1),
       determineGrade (calculateLuminance rgb.r rgb.g rgb.b)) := by
    unfold generatePalette
    rw [hp]
  rw [hg]
  refine ⟨by simp [LUMINANCE_RANGES], ?_, ?_⟩
  · rw [List.map_map]
    have hcong : ∀ r ∈ LUMINANCE_RANGES,
        ((fun e => PaletteEntry.grade e) ∘
          (paletteEntryFor s
            (calculateLuminance rgb.r rgb.g rgb.b)
            (determineGrade (calculateLuminance rgb.r rgb.g rgb.b))
            (rgbToHsl rgb.r rgb.g rgb.b).1 (rgbToHsl rgb.r rgb.g rgb.b).2.1)) r
          = r.grade := by
      intro r _
      exact paletteEntryFor_grade _ _ _ _ _ r
    rw [List.map_congr_left hcong]
    exact map_grade_LUMINANCE_RANGES
  · rw [List.countP_map]
    have hcong : ∀ r ∈ LUMINANCE_RANGES,
        ((fun e => PaletteEntry.isInputColor e) ∘
          (paletteEntryFor s
            (calculateLuminance rgb.r rgb.g rgb.b)
            (determineGrade (calculateLuminance rgb.r rgb.g rgb.b))
            (rgbToHsl rgb.r rgb.g rgb.b).1 (rgbToHsl rgb.r rgb.g rgb.b).2.1)) r
          = (decide (r.grade
              = (determineGrade (calculateLuminance rgb.r rgb.g rgb.b)).grade)
            && (determineGrade (calculateLuminance rgb.r rgb.g rgb.b)).exact) := by
      intro r _
      exact paletteEntryFor_isInputColor _ _ _ _ _ r
    rw [countP_congr_list _ hcong]
    cases hE : (determineGrade (calculateLuminance rgb.r rgb.g rgb.b)).exact with
    | false => simp [List.countP_eq_zero]
    | true =>
      have hle := countP_grade_le_one
        (determineGrade (calculateLuminance rgb.r rgb.g rgb.b)).grade
        LUMINANCE_RANGES (by rw [map_grade_LUMINANCE_RANGES]; exact GRADES_nodup)
      simpa using hle

/-- Witness for the amended C1 at the concrete input "#7BC4E8". -/
theorem generatePalette_shape_witness :
    (generatePalette "#7BC4E8").1.length = 12 ∧
      (generatePalette "#7BC4E8").1.map (fun e => e.grade) = GRADES ∧
      (generatePalette "#7BC4E8").1.countP (fun e => e.isInputColor) ≤ 1 :=
  generatePalette_shape "#7BC4E8" ⟨123, 196, 232⟩ (by rfl)

/-! ### The grade-0 and grade-100 palette entries (claims C6 and C3) -/

theorem generatePalette_eq (s : String) (rgb : RGB) (hp : hexToRgb s = some rgb) :
    generatePalette s =
      (LUMINANCE_RANGES.map
        (paletteEntryFor s
          (calculateLuminance rgb.r rgb.g rgb.b)
          (determineGrade (calculateLuminance rgb.r rgb.g rgb.b))
          (rgbToHsl rgb.r rgb.g rgb.b).1 (rgbToHsl rgb.r rgb.g rgb.b).2.1),
       determineGrade (calculateLuminance rgb.r rgb.g rgb.b)) := by
  unfold generatePalette
  rw [hp]

theorem palette_head (s : String) (L : ℝ) (info : GradeInfo) (h ss : ℝ) :
    (LUMINANCE_RANGES.map (paletteEntryFor s L info h ss)).head?
      = some (paletteEntryFor s L info h ss ⟨0, 1, 1⟩) := by
  rw [LUMINANCE_RANGES]
  rfl

theorem palette_last (s : String) (L : ℝ) (info : GradeInfo) (h ss : ℝ) :
    (LUMINANCE_RANGES.map (paletteEntryFor s L info h ss)).getLast?
      = some (paletteEntryFor s L info h ss ⟨100, 0, 0⟩) := by
  rw [LUMINANCE_RANGES]
  rfl

theorem entry0_isInput (s : String) (L : ℝ) (info : GradeInfo) (h ss : ℝ)
    (hc : 0 = info.grade ∧ info.exact = true) :
    paletteEntryFor s L info h ss ⟨0, 1, 1⟩ = ⟨0, toUpperStr s, L, true⟩ := by
  unfold paletteEntryFor
  dsimp only
  rw [if_pos hc]

theorem entry0_notInput (s : String) (L : ℝ) (info : GradeInfo) (h ss : ℝ)
    (hc : ¬(0 = info.grade ∧ info.exact = true)) :
    paletteEntryFor s L info h ss ⟨0, 1, 1⟩ = ⟨0, "#FFFFFF", 1, false⟩ := by
  unfold paletteEntryFor
  dsimp only
  rw [if_neg hc]
  simp

theorem entry100_isInput (s : String) (L : ℝ) (info : GradeInfo) (h ss : ℝ)
    (hc : 100 = info.grade ∧ info.exact = true) :
    paletteEntryFor s L info h ss ⟨100, 0, 0⟩ = ⟨100, toUpperStr s, L, true⟩ := by
  unfold paletteEntryFor
  dsimp only
  rw [if_pos hc]

theorem entry100_notInput (s : String) (L : ℝ) (info : GradeInfo) (h ss : ℝ)
    (hc : ¬(100 = info.grade ∧ info.exact = true)) :
    paletteEntryFor s L info h ss ⟨100, 0, 0⟩ = ⟨100, "#000000", 0, false⟩ := by
  unfold paletteEntryFor
  dsimp only
  rw [if_neg hc]
  simp

/-- C6: the palette of "#FFFFFF" begins with the grade-0 entry #FFFFFF,
marked as the input color, with luminance 1; the palette of "#000000" ends
with the grade-100 entry #000000, marked as the input color, with
luminance 0; calculateLuminance is exactly 1 at white and 0 at black, and
both classify as exact grade matches. -/
theorem generatePalette_white_black :
    (generatePalette "#FFFFFF").1.head? = some ⟨0, "#FFFFFF", 1, true⟩ ∧
      (generatePalette "#000000").1.getLast? = some ⟨100, "#000000", 0, true⟩ ∧
      calculateLuminance 255 255 255 = 1 ∧
      calculateLuminance 0 0 0 = 0 ∧
      determineGrade (calculateLuminance 255 255 255) = ⟨0, true, none, none⟩ ∧
      determineGrade (calculateLuminance 0 0 0) = ⟨100, true, none, none⟩ := by
  have hpW : hexToRgb "#FFFFFF" = some ⟨255, 255, 255⟩ := rfl
  have hpB : hexToRgb "#000000" = some ⟨0, 0, 0⟩ := rfl
  have hLW : calculateLuminance (((⟨255, 255, 255⟩ : RGB).r : ℝ))
      (((⟨255, 255, 255⟩ : RGB).g : ℝ)) (((⟨255, 255, 255⟩ : RGB).b : ℝ)) = 1 := by
    have er : (((⟨255, 255, 255⟩ : RGB).r : ℕ) : ℝ) = 255 := by norm_num
    rw [er]
    exact calculateLuminance_white
  have hLB : calculateLuminance (((⟨0, 0, 0⟩ : RGB).r : ℝ))
      (((⟨0, 0, 0⟩ : RGB).g : ℝ)) (((⟨0, 0, 0⟩ : RGB).b : ℝ)) = 0 := by
    have er : (((⟨0, 0, 0⟩ : RGB).r : ℕ) : ℝ) = 0 := by norm_num
    rw [er]
    exact calculateLuminance_black
  refine ⟨?_, ?_, calculateLuminance_white, calculateLuminance_black,
      by rw [calculateLuminance_white]; exact determineGrade_one,
      by rw [calculateLuminance_black]; exact determineGrade_zero⟩
  · rw [generatePalette_eq "#FFFFFF" ⟨255, 255, 255⟩ hpW]
    dsimp only
    rw [palette_head]
    rw [entry0_isInput _ _ _ _ _
      ⟨by rw [hLW, determineGrade_one], by rw [hLW, determineGrade_one]⟩]
    rw [hLW]
    rfl
  · rw [generatePalette_eq "#000000" ⟨0, 0, 0⟩ hpB]
    dsimp only
    rw [palette_last]
    rw [entry100_isInput _ _ _ _ _
      ⟨by rw [hLB, determineGrade_zero], by rw [hLB, determineGrade_zero]⟩]
    rw [hLB]
    rfl

/-! ### hslToRgb channel bounds and hex well-formedness (claim C9) -/

/-- An uppercase hex digit, as rgbToHex emits. -/
def isUpperHexDigit (c : Char) : Bool :=
  (('0' ≤ c) && (c ≤ '9')) || (('A' ≤ c) && (c ≤ 'F'))

theorem isUpperHexDigit_toUpper_digitChar {k : ℕ} (hk : k < 16) :
    isUpperHexDigit (Char.toUpper (Nat.digitChar k)) = true := by
  interval_cases k <;> decide

theorem rgbToHex_wellFormed {r g b : ℕ} (hr : r ≤ 255) (hg : g ≤ 255) (hb : b ≤ 255) :
    ∃ cs, (rgbToHex r g b).data = '#' :: cs ∧ cs.length = 6 ∧
      cs.all isUpperHexDigit = true := by
  refine ⟨[Char.toUpper (Nat.digitChar (r / 16)), Char.toUpper (Nat.digitChar (r % 16)),
    Char.toUpper (Nat.digitChar (g / 16)), Char.toUpper (Nat.digitChar (g % 16)),
    Char.toUpper (Nat.digitChar (b / 16)), Char.toUpper (Nat.digitChar (b % 16))],
    ?_, rfl, ?_⟩
  · rw [rgbToHex_data hr hg hb]
  · simp only [List.all_cons, List.all_nil, Bool.and_true]
    rw [isUpperHexDigit_toUpper_digitChar (by omega),
      isUpperHexDigit_toUpper_digitChar (by omega),
      isUpperHexDigit_toUpper_digitChar (by omega),
      isUpperHexDigit_toUpper_digitChar (by omega),
      isUpperHexDigit_toUpper_digitChar (by omega),
      isUpperHexDigit_toUpper_digitChar (by omega)]
    rfl

theorem round_channel {x : ℝ} (h0 : 0 ≤ x) (h1 : x ≤ 1) :
    0 ≤ round (x * 255) ∧ round (x * 255) ≤ 255 := by
  rw [round_eq]
  constructor
  · rw [Int.le_floor]
    push_cast
    linarith
  · have hlt : ⌊x * 255 + 1 / 2⌋ < 256 := by
      rw [Int.floor_lt]
      push_cast
      linarith
    omega

theorem hue2rgb_bounds {p q t : ℝ} (h0 : 0 ≤ p) (hpq : p ≤ q) (h1 : q ≤ 1)
    (ht1 : -1 ≤ t) (ht2 : t ≤ 2) :
    0 ≤ hue2rgb p q t ∧ hue2rgb p q t ≤ 1 := by
  unfold hue2rgb
  dsimp only
  split_ifs <;> constructor <;> nlinarith

theorem hsl_qp_bounds {s l : ℝ} (hs0 : 0 ≤ s) (hs1 : s ≤ 1) (hl0 : 0 ≤ l) (hl1 : l ≤ 1) :
    0 ≤ 2 * l - (if l < 0.5 then l * (1 + s) else l + s - l * s) ∧
      2 * l - (if l < 0.5 then l * (1 + s) else l + s - l * s)
        ≤ (if l < 0.5 then l * (1 + s) else l + s - l * s) ∧
      (if l < 0.5 then l * (1 + s) else l + s - l * s) ≤ 1 := by
  split_ifs with hc <;> refine ⟨?_, ?_, ?_⟩ <;> nlinarith

/-- C9: for hue, saturation and lightness in [0, 1], every channel hslToRgb
produces is an integer in [0, 255], and rgbToHex applied to those channels
yields a well-formed string: a '#' followed by exactly six uppercase hex
digits. -/
theorem hslToRgb_spec (h s l : ℝ) (hh0 : 0 ≤ h) (hh1 : h ≤ 1) (hs0 : 0 ≤ s)
    (hs1 : s ≤ 1) (hl0 : 0 ≤ l) (hl1 : l ≤ 1) :
    (0 ≤ (hslToRgb h s l).r ∧ (hslToRgb h s l).r ≤ 255) ∧
      (0 ≤ (hslToRgb h s l).g ∧ (hslToRgb h s l).g ≤ 255) ∧
      (0 ≤ (hslToRgb h s l).b ∧ (hslToRgb h s l).b ≤ 255) ∧
      (∃ cs, (rgbToHex (hslToRgb h s l).r.toNat (hslToRgb h s l).g.toNat
          (hslToRgb h s l).b.toNat).data = '#' :: cs ∧ cs.length = 6 ∧
        cs.all isUpperHexDigit = true) := by
  have hch : (0 ≤ (hslToRgb h s l).r ∧ (hslToRgb h s l).r ≤ 255) ∧
      (0 ≤ (hslToRgb h s l).g ∧ (hslToRgb h s l).g ≤ 255) ∧
      (0 ≤ (hslToRgb h s l).b ∧ (hslToRgb h s l).b ≤ 255) := by
    by_cases hs : s = 0
    · have e : hslToRgb h s l = ⟨round (l * 255), round (l * 255), round (l * 255)⟩ := by
        unfold hslToRgb
        rw [if_pos hs]
      rw [e]
      exact ⟨round_channel hl0 hl1, round_channel hl0 hl1, round_channel hl0 hl1⟩
    · have e : hslToRgb h s l =
          ⟨round (hue2rgb (2 * l - (if l < 0.5 then l * (1 + s) else l + s - l * s))
              (if l < 0.5 then l * (1 + s) else l + s - l * s) (h + 1 / 3) * 255),
           round (hue2rgb (2 * l - (if l < 0.5 then l * (1 + s) else l + s - l * s))
              (if l < 0.5 then l * (1 + s) else l + s - l * s) h * 255),
           round (hue2rgb (2 * l - (if l < 0.5 then l * (1 + s) else l + s - l * s))
              (if l < 0.5 then l * (1 + s) else l + s - l * s) (h - 1 / 3) * 255)⟩ := by
        unfold hslToRgb
        rw [if_neg hs]
      rw [e]
      obtain ⟨hp0, hpq, hq1⟩ := hsl_qp_bounds hs0 hs1 hl0 hl1
      obtain ⟨ha0, ha1⟩ := hue2rgb_bounds hp0 hpq hq1
        (t := h + 1 / 3) (by linarith) (by linarith)
      obtain ⟨hb0, hb1⟩ := hue2rgb_bounds hp0 hpq hq1
        (t := h) (by linarith) (by linarith)
      obtain ⟨hc0, hc1⟩ := hue2rgb_bounds hp0 hpq hq1
        (t := h - 1 / 3) (by linarith) (by linarith)
      exact ⟨round_channel ha0 ha1, round_channel hb0 hb1, round_channel hc0 hc1⟩
  obtain ⟨⟨hr0, hr1⟩, ⟨hg0, hg1⟩, ⟨hb0, hb1⟩⟩ := hch
  refine ⟨⟨hr0, hr1⟩, ⟨hg0, hg1⟩, ⟨hb0, hb1⟩, ?_⟩
  exact rgbToHex_wellFormed (by omega) (by omega) (by omega)

/-- Witness for C9 at (h, s, l) = (0, 0, 1), which produces pure white. -/
theorem hslToRgb_spec_witness :
    (0 ≤ (hslToRgb 0 0 1).r ∧ (hslToRgb 0 0 1).r ≤ 255) ∧
      (0 ≤ (hslToRgb 0 0 1).g ∧ (hslToRgb 0 0 1).g ≤ 255) ∧
      (0 ≤ (hslToRgb 0 0 1).b ∧ (hslToRgb 0 0 1).b ≤ 255) ∧
      (∃ cs, (rgbToHex (hslToRgb 0 0 1).r.toNat (hslToRgb 0 0 1).g.toNat
          (hslToRgb 0 0 1).b.toNat).data = '#' :: cs ∧ cs.length = 6 ∧
        cs.all isUpperHexDigit = true) :=
  hslToRgb_spec 0 0 1 (by norm_num) (by norm_num) (by norm_num) (by norm_num)
    (by norm_num) (by norm_num)

/-! ### Inverting the parser on pure white and pure black (claim C3) -/

theorem char_eq_of_toNat_eq {a b : Char} (h : a.toNat = b.toNat) : a = b := by
  apply Char.ext
  have h2 : a.val.toBitVec = b.val.toBitVec := BitVec.eq_of_toNat_eq h
  calc a.val = UInt32.mk a.val.toBitVec := (UInt32.mk_toBitVec_eq a.val).symm
    _ = UInt32.mk b.val.toBitVec := by rw [h2]
    _ = b.val := UInt32.mk_toBitVec_eq b.val

theorem hexVal_le {c : Char} (hc : isHexChar c = true) : hexVal c ≤ 15 := by
  unfold isHexChar at hc
  unfold hexVal
  simp only [Bool.or_eq_true, Bool.and_eq_true, decide_eq_true_eq] at hc ⊢
  split_ifs <;> omega

theorem toUpper_of_hexVal15 {c : Char} (hc : isHexChar c = true)
    (hv : hexVal c = 15) : Char.toUpper c = 'F' := by
  unfold isHexChar at hc
  unfold hexVal at hv
  simp only [Bool.or_eq_true, Bool.and_eq_true, decide_eq_true_eq] at hc hv
  rcases hc with (⟨h1, h2⟩ | ⟨h1, h2⟩) | ⟨h1, h2⟩
  · rw [if_pos (show 48 ≤ c.toNat ∧ c.toNat ≤ 57 from ⟨h1, h2⟩)] at hv
    omega
  · rw [if_neg (show ¬(48 ≤ c.toNat ∧ c.toNat ≤ 57) by omega),
      if_pos (show 97 ≤ c.toNat ∧ c.toNat ≤ 102 from ⟨h1, h2⟩)] at hv
    have hn : c.toNat = 102 := by omega
    unfold Char.toUpper
    rw [if_pos (show c.toNat ≥ 97 ∧ c.toNat ≤ 122 by constructor <;> omega)]
    rw [hn]
  · rw [if_neg (show ¬(48 ≤ c.toNat ∧ c.toNat ≤ 57) by omega),
      if_neg (show ¬(97 ≤ c.toNat ∧ c.toNat ≤ 102) by omega),
      if_pos (show 65 ≤ c.toNat ∧ c.toNat ≤ 70 from ⟨h1, h2⟩)] at hv
    have hn : c.toNat = 70 := by omega
    unfold Char.toUpper
    rw [if_neg (show ¬(c.toNat ≥ 97 ∧ c.toNat ≤ 122) by omega)]
    exact char_eq_of_toNat_eq (by rw [hn]; rfl)

theorem toUpper_of_hexVal0 {c : Char} (hc : isHexChar c = true)
    (hv : hexVal c = 0) : Char.toUpper c = '0' := by
  unfold isHexChar at hc
  unfold hexVal at hv
  simp only [Bool.or_eq_true, Bool.and_eq_true, decide_eq_true_eq] at hc hv
  rcases hc with (⟨h1, h2⟩ | ⟨h1, h2⟩) | ⟨h1, h2⟩
  · rw [if_pos (show 48 ≤ c.toNat ∧ c.toNat ≤ 57 from ⟨h1, h2⟩)] at hv
    have hn : c.toNat = 48 := by omega
    unfold Char.toUpper
    rw [if_neg (show ¬(c.toNat ≥ 97 ∧ c.toNat ≤ 122) by omega)]
    exact char_eq_of_toNat_eq (by rw [hn]; rfl)
  · rw [if_neg (show ¬(48 ≤ c.toNat ∧ c.toNat ≤ 57) by omega),
      if_pos (show 97 ≤ c.toNat ∧ c.toNat ≤ 102 from ⟨h1, h2⟩)] at hv
    omega
  · rw [if_neg (show ¬(48 ≤ c.toNat ∧ c.toNat ≤ 57) by omega),
      if_neg (show ¬(97 ≤ c.toNat ∧ c.toNat ≤ 102) by omega),
      if_pos (show 65 ≤ c.toNat ∧ c.toNat ≤ 70 from ⟨h1, h2⟩)] at hv
    omega

theorem parseHex6_inv {cs : List Char} {rgb : RGB} (h : parseHex6 cs = some rgb) :
    ∃ c1 c2 c3 c4 c5 c6, cs = [c1, c2, c3, c4, c5, c6] ∧
      isHexChar c1 = true ∧ isHexChar c2 = true ∧ isHexChar c3 = true ∧
      isHexChar c4 = true ∧ isHexChar c5 = true ∧ isHexChar c6 = true ∧
      parsePair c1 c2 = rgb.r ∧ parsePair c3 c4 = rgb.g ∧ parsePair c5 c6 = rgb.b := by
  rcases cs with _ | ⟨c1, _ | ⟨c2, _ | ⟨c3, _ | ⟨c4, _ | ⟨c5, _ | ⟨c6, _ | ⟨c7, rest⟩⟩⟩⟩⟩⟩⟩
  · simp [parseHex6] at h
  · simp [parseHex6] at h
  · simp [parseHex6] at h
  · simp [parseHex6] at h
  · simp [parseHex6] at h
  · simp [parseHex6] at h
  · simp only [parseHex6] at h
    by_cases hall : (isHexChar c1 && isHexChar c2 && isHexChar c3 &&
        isHexChar c4 && isHexChar c5 && isHexChar c6) = true
    · rw [if_pos hall] at h
      simp only [Bool.and_eq_true] at hall
      obtain ⟨⟨⟨⟨⟨a1, a2⟩, a3⟩, a4⟩, a5⟩, a6⟩ := hall
      refine ⟨c1, c2, c3, c4, c5, c6, rfl, a1, a2, a3, a4, a5, a6, ?_, ?_, ?_⟩ <;>
        · rw [← Option.some_inj.1 h]
    · rw [if_neg hall] at h
      exact absurd h (by simp)
  · simp [parseHex6] at h

theorem hexToRgb_inv {s : String} {rgb : RGB} (hp : hexToRgb s = some rgb)
    (hh : s.data.head? = some '#') :
    ∃ cs, s.data = '#' :: cs ∧ parseHex6 cs = some rgb := by
  unfold hexToRgb at hp
  rcases hd : s.data with _ | ⟨c, tail⟩
  · rw [hd] at hh
    simp at hh
  · rw [hd] at hh
    simp only [List.head?_cons, Option.some_inj] at hh
    subst hh
    rw [hd] at hp
    exact ⟨tail, rfl, hp⟩

/-- Channels produced by hexToRgb are at most 255. -/
theorem hexToRgb_le_255 {s : String} {rgb : RGB} (hp : hexToRgb s = some rgb) :
    rgb.r ≤ 255 ∧ rgb.g ≤ 255 ∧ rgb.b ≤ 255 := by
  have hinv : ∃ cs, parseHex6 cs = some rgb := by
    unfold hexToRgb at hp
    split at hp
    · exact ⟨_, hp⟩
    · exact ⟨_, hp⟩
  obtain ⟨cs, hcs⟩ := hinv
  obtain ⟨c1, c2, c3, c4, c5, c6, _, a1, a2, a3, a4, a5, a6, e1, e2, e3⟩ :=
    parseHex6_inv hcs
  have v1 := hexVal_le a1
  have v2 := hexVal_le a2
  have v3 := hexVal_le a3
  have v4 := hexVal_le a4
  have v5 := hexVal_le a5
  have v6 := hexVal_le a6
  unfold parsePair at e1 e2 e3
  omega

/-- A '#'-prefixed input that parses to pure white uppercases to exactly
"#FFFFFF". -/
theorem toUpperStr_white {s : String} (hp : hexToRgb s = some ⟨255, 255, 255⟩)
    (hh : s.data.head? = some '#') : toUpperStr s = "#FFFFFF" := by
  obtain ⟨cs, hdata, hparse⟩ := hexToRgb_inv hp hh
  obtain ⟨c1, c2, c3, c4, c5, c6, hcs, a1, a2, a3, a4, a5, a6, e1, e2, e3⟩ :=
    parseHex6_inv hparse
  have v1 := hexVal_le a1
  have v2 := hexVal_le a2
  have v3 := hexVal_le a3
  have v4 := hexVal_le a4
  have v5 := hexVal_le a5
  have v6 := hexVal_le a6
  unfold parsePair at e1 e2 e3
  simp only at e1 e2 e3
  have u1 := toUpper_of_hexVal15 a1 (by omega)
  have u2 := toUpper_of_hexVal15 a2 (by omega)
  have u3 := toUpper_of_hexVal15 a3 (by omega)
  have u4 := toUpper_of_hexVal15 a4 (by omega)
  have u5 := toUpper_of_hexVal15 a5 (by omega)
  have u6 := toUpper_of_hexVal15 a6 (by omega)
  unfold toUpperStr
  rw [hdata, hcs]
  simp only [List.map_cons, List.map_nil, u1, u2, u3, u4, u5, u6]
  rfl

/-- A '#'-prefixed input that parses to pure black uppercases to exactly
"#000000". -/
theorem toUpperStr_black {s : String} (hp : hexToRgb s = some ⟨0, 0, 0⟩)
    (hh : s.data.head? = some '#') : toUpperStr s = "#000000" := by
  obtain ⟨cs, hdata, hparse⟩ := hexToRgb_inv hp hh
  obtain ⟨c1, c2, c3, c4, c5, c6, hcs, a1, a2, a3, a4, a5, a6, e1, e2, e3⟩ :=
    parseHex6_inv hparse
  unfold parsePair at e1 e2 e3
  simp only at e1 e2 e3
  have u1 := toUpper_of_hexVal0 a1 (by omega)
  have u2 := toUpper_of_hexVal0 a2 (by omega)
  have u3 := toUpper_of_hexVal0 a3 (by omega)
  have u4 := toUpper_of_hexVal0 a4 (by omega)
  have u5 := toUpper_of_hexVal0 a5 (by omega)
  have u6 := toUpper_of_hexVal0 a6 (by omega)
  unfold toUpperStr
  rw [hdata, hcs]
  simp only [List.map_cons, List.map_nil, u1, u2, u3, u4, u5, u6]
  rfl

theorem srgbToLinear_le_one {c : ℝ} (h0 : 0 ≤ c) (h1 : c ≤ 1) : srgbToLinear c ≤ 1 := by
  unfold srgbToLinear
  split_ifs with hc
  · rw [div_le_one (by norm_num)]
    linarith
  · apply Real.rpow_le_one (by positivity) ?_ (by norm_num)
    rw [div_le_one (by norm_num)]
    linarith

theorem srgbToLinear_lt_one {c : ℝ} (h0 : 0 ≤ c) (h1 : c < 1) : srgbToLinear c < 1 := by
  unfold srgbToLinear
  split_ifs with hc
  · rw [div_lt_one (by norm_num)]
    linarith
  · apply Real.rpow_lt_one (by positivity) ?_ (by norm_num)
    rw [div_lt_one (by norm_num)]
    linarith

theorem srgbToLinear_nonneg {c : ℝ} (h0 : 0 ≤ c) : 0 ≤ srgbToLinear c := by
  unfold srgbToLinear
  split_ifs with hc
  · positivity
  · exact Real.rpow_nonneg (by positivity) _

theorem srgbToLinear_pos {c : ℝ} (h0 : 0 < c) : 0 < srgbToLinear c := by
  unfold srgbToLinear
  split_ifs with hc
  · positivity
  · exact Real.rpow_pos_of_pos (by positivity) _

/-- The only channel triple of luminance exactly 1 is pure white. -/
theorem calculateLuminance_eq_one_inv {rgb : RGB}
    (h1 : rgb.r ≤ 255) (h2 : rgb.g ≤ 255) (h3 : rgb.b ≤ 255)
    (hL : calculateLuminance rgb.r rgb.g rgb.b = 1) :
    rgb.r = 255 ∧ rgb.g = 255 ∧ rgb.b = 255 := by
  unfold calculateLuminance at hL
  have key : ∀ n : ℕ, n ≤ 255 → srgbToLinear ((n : ℝ) / 255) ≤ 1 := by
    intro n hn
    apply srgbToLinear_le_one (by positivity)
    rw [div_le_one (by norm_num)]
    exact_mod_cast hn
  have keylt : ∀ n : ℕ, n < 255 → srgbToLinear ((n : ℝ) / 255) < 1 := by
    intro n hn
    apply srgbToLinear_lt_one (by positivity)
    rw [div_lt_one (by norm_num)]
    exact_mod_cast hn
  refine ⟨?_, ?_, ?_⟩ <;> by_contra hne
  · have k1 := keylt rgb.r (by omega)
    have k2 := key rgb.g h2
    have k3 := key rgb.b h3
    linarith
  · have k1 := key rgb.r h1
    have k2 := keylt rgb.g (by omega)
    have k3 := key rgb.b h3
    linarith
  · have k1 := key rgb.r h1
    have k2 := key rgb.g h2
    have k3 := keylt rgb.b (by omega)
    linarith

/-- The only channel triple of luminance exactly 0 is pure black. -/
theorem calculateLuminance_eq_zero_inv {rgb : RGB}
    (hL : calculateLuminance rgb.r rgb.g rgb.b = 0) :
    rgb.r = 0 ∧ rgb.g = 0 ∧ rgb.b = 0 := by
  unfold calculateLuminance at hL
  have key : ∀ n : ℕ, 0 ≤ srgbToLinear ((n : ℝ) / 255) := by
    intro n
    exact srgbToLinear_nonneg (by positivity)
  have keypos : ∀ n : ℕ, 0 < n → 0 < srgbToLinear ((n : ℝ) / 255) := by
    intro n hn
    apply srgbToLinear_pos
    have : (0 : ℝ) < (n : ℝ) := by exact_mod_cast hn
    positivity
  refine ⟨?_, ?_, ?_⟩ <;> by_contra hne
  · have k1 := keypos rgb.r (by omega)
    have k2 := key rgb.g
    have k3 := key rgb.b
    linarith
  · have k1 := key rgb.r
    have k2 := keypos rgb.g (by omega)
    have k3 := key rgb.b
    linarith
  · have k1 := key rgb.r
    have k2 := key rgb.g
    have k3 := keypos rgb.b (by omega)
    linarith

/-- An exact classification comes from a band of the table containing the
luminance, whose grade is the returned one. -/
theorem determineGrade_exact_inv {L : ℝ} (hE : (determineGrade L).exact = true) :
    ∃ B ∈ LUMINANCE_RANGES, B.min ≤ L ∧ L ≤ B.max ∧ (determineGrade L).grade = B.grade := by
  unfold determineGrade at hE ⊢
  cases hf : LUMINANCE_RANGES.find? (fun r => decide (L ≥ r.min ∧ L ≤ r.max)) with
  | none =>
    rw [hf] at hE
    simp at hE
  | some B =>
    rw [hf] at hE
    have hmem := List.mem_of_find?_eq_some hf
    have hpred := List.find?_some hf
    simp only [decide_eq_true_eq] at hpred
    exact ⟨B, hmem, hpred.1, hpred.2, rfl⟩

theorem exact_grade0_lum_one {L : ℝ} (hE : (determineGrade L).exact = true)
    (hG : (determineGrade L).grade = 0) : L = 1 := by
  obtain ⟨B, hB, hmin, hmax, hgrade⟩ := determineGrade_exact_inv hE
  rw [hG] at hgrade
  clear hE hG
  rw [LUMINANCE_RANGES] at hB
  fin_cases hB <;> norm_num at hgrade hmin hmax <;> linarith

theorem exact_grade100_lum_zero {L : ℝ} (hE : (determineGrade L).exact = true)
    (hG : (determineGrade L).grade = 100) : L = 0 := by
  obtain ⟨B, hB, hmin, hmax, hgrade⟩ := determineGrade_exact_inv hE
  rw [hG] at hgrade
  clear hE hG
  rw [LUMINANCE_RANGES] at hB
  fin_cases hB <;> norm_num at hgrade hmin hmax <;> linarith

/-- C3 (amended): for every '#'-prefixed input accepted by hexToRgb, the
grade-0 entry of the palette has color exactly "#FFFFFF" with luminance 1
and the grade-100 entry has color exactly "#000000" with luminance 0,
regardless of the input color.  (Without the '#' the exact-match branch
reuses the uppercased input verbatim, e.g. "FFFFFF".) -/
theorem generatePalette_fixed_extremes (s : String) (rgb : RGB)
    (hp : hexToRgb s = some rgb) (hh : s.data.head? = some '#') :
    ((generatePalette s).1.head?).map PaletteEntry.color = some "#FFFFFF" ∧
      ((generatePalette s).1.head?).map PaletteEntry.luminance = some 1 ∧
      ((generatePalette s).1.getLast?).map PaletteEntry.color = some "#000000" ∧
      ((generatePalette s).1.getLast?).map PaletteEntry.luminance = some 0 := by
  obtain ⟨hr255, hg255, hb255⟩ := hexToRgb_le_255 hp
  rw [generatePalette_eq s rgb hp]
  dsimp only
  rw [palette_head, palette_last]
  by_cases h0 : 0 = (determineGrade (calculateLuminance rgb.r rgb.g rgb.b)).grade ∧
      (determineGrade (calculateLuminance rgb.r rgb.g rgb.b)).exact = true
  · have hL1 : calculateLuminance rgb.r rgb.g rgb.b = 1 :=
      exact_grade0_lum_one h0.2 h0.1.symm
    have hwhite : rgb = ⟨255, 255, 255⟩ := by
      obtain ⟨e1, e2, e3⟩ := calculateLuminance_eq_one_inv hr255 hg255 hb255 hL1
      cases rgb
      simp_all
    have hus : toUpperStr s = "#FFFFFF" := toUpperStr_white (hwhite ▸ hp) hh
    have h100 : ¬(100 = (determineGrade (calculateLuminance rgb.r rgb.g rgb.b)).grade ∧
        (determineGrade (calculateLuminance rgb.r rgb.g rgb.b)).exact = true) := by
      intro hcon
      have e1 := h0.1
      have e2 := hcon.1
      omega
    rw [entry0_isInput _ _ _ _ _ h0, entry100_notInput _ _ _ _ _ h100]
    exact ⟨by simp [hus], by simp [hL1], by simp, by simp⟩
  · rw [entry0_notInput _ _ _ _ _ h0]
    by_cases h100 : 100 = (determineGrade (calculateLuminance rgb.r rgb.g rgb.b)).grade ∧
        (determineGrade (calculateLuminance rgb.r rgb.g rgb.b)).exact = true
    · have hL0 : calculateLuminance rgb.r rgb.g rgb.b = 0 :=
        exact_grade100_lum_zero h100.2 h100.1.symm
      have hblack : rgb = ⟨0, 0, 0⟩ := by
        obtain ⟨e1, e2, e3⟩ := calculateLuminance_eq_zero_inv hL0
        cases rgb
        simp_all
      have hus : toUpperStr s = "#000000" := toUpperStr_black (hblack ▸ hp) hh
      rw [entry100_isInput _ _ _ _ _ h100]
      exact ⟨by simp, by simp, by simp [hus], by simp [hL0]⟩
    · rw [entry100_notInput _ _ _ _ _ h100]
      exact ⟨by simp, by simp, by simp, by simp⟩

/-- Witness for the amended C3 at the concrete input "#7BC4E8". -/
theorem generatePalette_fixed_extremes_witness :
    ((generatePalette "#7BC4E8").1.head?).map PaletteEntry.color = some "#FFFFFF" ∧
      ((generatePalette "#7BC4E8").1.head?).map PaletteEntry.luminance = some 1 ∧
      ((generatePalette "#7BC4E8").1.getLast?).map PaletteEntry.color = some "#000000" ∧
      ((generatePalette "#7BC4E8").1.getLast?).map PaletteEntry.luminance = some 0 :=
  generatePalette_fixed_extremes "#7BC4E8" ⟨123, 196, 232⟩ (by rfl) (by rfl)

/-- Counterexample to C3 as stated: the input "FFFFFF" (no leading '#') is
accepted by hexToRgb, but the grade-0 entry of its palette is the string
"FFFFFF", not "#FFFFFF". -/
theorem generatePalette_counterexample_C3 :
    ((generatePalette "FFFFFF").1.head?).map PaletteEntry.color = some "FFFFFF" ∧
      "FFFFFF" ≠ "#FFFFFF" := by
  have hp : hexToRgb "FFFFFF" = some ⟨255, 255, 255⟩ := rfl
  have er : (((⟨255, 255, 255⟩ : RGB).r : ℕ) : ℝ) = 255 := by norm_num
  have hI : determineGrade (calculateLuminance (((⟨255, 255, 255⟩ : RGB).r : ℕ) : ℝ)
      (((⟨255, 255, 255⟩ : RGB).g : ℕ) : ℝ) (((⟨255, 255, 255⟩ : RGB).b : ℕ) : ℝ))
      = ⟨0, true, none, none⟩ := by
    rw [er]
    rw [calculateLuminance_white]
    exact determineGrade_one
  constructor
  · rw [generatePalette_eq "FFFFFF" ⟨255, 255, 255⟩ hp]
    dsimp only
    rw [palette_head]
    rw [entry0_isInput _ _ _ _ _ ⟨by rw [hI], by rw [hI]⟩]
    rfl
  · decide
